import Mathlib

/-!
Shallow embedding of `app.py` (InstaScraper backend).

Conventions of the embedding:
* Python `datetime` values are modelled as integer timestamps (seconds since
  an arbitrary epoch); `isoformat`/`fromisoformat` are the identity under this
  view, and `timedelta(minutes=m)` is `m * 60` seconds.
* Python `float` arithmetic in `calculate_engagement_rate` and the stats
  averages is modelled as exact rational arithmetic (`ℚ`); Python's `round`
  (banker's rounding, round-half-to-even) is modelled exactly on `ℚ`.
* The external scraping library (`instaloader`) is an opaque collaborator: a
  call for a username at a given attempt number either yields a profile object
  or raises one of three exception kinds.  It is modelled by an oracle
  `Nat → FetchOutcome` (attempt number ↦ outcome).
* `time.sleep` has no observable effect on the state modelled here and is
  dropped.
-/

namespace InstaScraper

/-- Configuration constant `CACHE_DURATION_MINUTES = 30` (app.py line 40). -/
def CACHE_DURATION_MINUTES : Int := 30

/-- Configuration constant `MAX_RETRIES = 3` (app.py line 41). -/
def MAX_RETRIES : Nat := 3

/-- Configuration constant `RETRY_DELAY = 5` (app.py line 42). -/
def RETRY_DELAY : Nat := 5

/-- The fixed in-source username list `USERNAMES` (app.py lines 45-68). -/
def USERNAMES : List String :=
  ["instagram", "cristiano", "leomessi", "selenagomez", "therock",
   "kyliejenner", "arianagrande", "kimkardashian", "beyonce", "justinbieber",
   "nike", "natgeo", "nasa", "redbull", "spotify",
   "tarakeshwar_bikumandla", "anshsaxenna"]

/-- An `instaloader.Profile` object as read by `fetch_profile_data`:
the attributes of the external library's profile that the code accesses.
`business_category_name` is `none` when the attribute is absent
(the `hasattr` check, app.py line 136); `external_url` is `none` when the
library returns Python `None` (app.py line 133). -/
structure SourceProfile where
  username : String
  full_name : String
  followers : Nat
  followees : Nat
  mediacount : Nat
  profile_pic_url : String
  is_verified : Bool
  biography : String
  external_url : Option String
  is_private : Bool
  is_business_account : Bool
  business_category_name : Option String
  deriving Repr, DecidableEq

/-- Outcome of one call to `instaloader.Profile.from_username` (the opaque
external collaborator): a profile object, or one of the three exception kinds
distinguished by `fetch_profile_data`'s `except` clauses (app.py
lines 144-164). -/
inductive FetchOutcome where
  | ok (p : SourceProfile)
  | profileNotExists
  | connError (msg : String)
  | otherExc (msg : String)
  deriving Repr, DecidableEq

/-- `calculate_engagement_rate`'s rounding: Python's built-in `round(x, 2)`
uses round-half-to-even (banker's rounding), modelled exactly on `ℚ`. -/
def pyRoundHalfEven (q : ℚ) : ℤ :=
  if q - ⌊q⌋ < 1/2 then ⌊q⌋
  else if q - ⌊q⌋ > 1/2 then ⌊q⌋ + 1
  else if ⌊q⌋ % 2 = 0 then ⌊q⌋ else ⌊q⌋ + 1

/-- Python `round(x, 2)` on the rational model. -/
def pyRound2 (q : ℚ) : ℚ := (pyRoundHalfEven (q * 100) : ℚ) / 100

/-- `calculate_engagement_rate(profile)` (app.py lines 166-176): returns 0.0
when `profile.followers == 0`, otherwise `round(followees/followers*100, 2)`.
The `except` clause (app.py line 175) is unreachable for integer attributes
once the zero guard has passed, so the guarded branch is total here. -/
def calculate_engagement_rate (profile : SourceProfile) : ℚ :=
  if profile.followers = 0 then 0
  else pyRound2 ((profile.followees : ℚ) / (profile.followers : ℚ) * 100)

/-- One cached profile record: the dict built by `fetch_profile_data`
(app.py lines 124-139).  `fetchedAt` is the integer-timestamp model of
`datetime.now().isoformat()`. -/
structure ProfileData where
  username : String
  fullName : String
  followers : Nat
  following : Nat
  posts : Nat
  profilePic : String
  isVerified : Bool
  biography : String
  externalUrl : String
  isPrivate : Bool
  isBusiness : Bool
  category : String
  fetchedAt : Int
  engagementRate : ℚ
  deriving Repr, DecidableEq

/-- Building the record dict from a fetched profile (app.py lines 124-139).
`fullName` models `profile.full_name or profile.username` (empty string is
falsy); `biography` models `profile.biography[:100] if profile.biography
else ''`; `externalUrl` models `profile.external_url or ''`; `category`
models the `hasattr` guard. -/
def mkProfileData (now : Int) (profile : SourceProfile) : ProfileData :=
  { username := profile.username
    fullName := if profile.full_name ≠ "" then profile.full_name else profile.username
    followers := profile.followers
    following := profile.followees
    posts := profile.mediacount
    profilePic := profile.profile_pic_url
    isVerified := profile.is_verified
    biography := if profile.biography ≠ "" then profile.biography.take 100 else ""
    externalUrl := match profile.external_url with
      | some u => if u ≠ "" then u else ""
      | none => ""
    isPrivate := profile.is_private
    isBusiness := profile.is_business_account
    category := profile.business_category_name.getD ""
    fetchedAt := now
    engagementRate := calculate_engagement_rate profile }

/-- `fetch_profile_data(username, retry_count)` (app.py lines 116-164).
The oracle gives the outcome of the external call at each attempt number.
Returns the Python pair `(data, error)`: exactly one side is `some`.
A `ProfileNotExistsException` returns its error immediately; a
`ConnectionException` recurses with `retry_count + 1` while
`retry_count < MAX_RETRIES - 1` and otherwise returns the (last) connection
error; any other exception returns its error immediately. -/
def fetch_profile_data (oracle : Nat → FetchOutcome) (now : Int)
    (username : String) (retry_count : Nat) :
    Option ProfileData × Option String :=
  match oracle retry_count with
  | .ok profile => (some (mkProfileData now profile), none)
  | .profileNotExists =>
      (none, some ("Profile '" ++ username ++ "' does not exist"))
  | .connError _ =>
      if h : retry_count < MAX_RETRIES - 1 then
        fetch_profile_data oracle now username (retry_count + 1)
      else
        (none, some ("Connection error for '" ++ username ++ "'"))
  | .otherExc msg =>
      (none, some ("Error fetching '" ++ username ++ "': " ++ msg))
termination_by MAX_RETRIES - retry_count
decreasing_by simp [MAX_RETRIES] at *; omega

/-- Number of calls made to the external source by
`fetch_profile_data oracle now username retry_count` (one per recursion
level): instruments the retry loop so that "no retry" / "3 attempts total"
can be stated. -/
def fetch_attempts (oracle : Nat → FetchOutcome) (retry_count : Nat) : Nat :=
  match oracle retry_count with
  | .connError _ =>
      if h : retry_count < MAX_RETRIES - 1 then
        1 + fetch_attempts oracle (retry_count + 1)
      else 1
  | _ => 1
termination_by MAX_RETRIES - retry_count
decreasing_by simp [MAX_RETRIES] at *; omega

/-- One entry of the `errors` list built by `update_cache_data`
(app.py line 196): `{'username': ..., 'error': ...}`. -/
structure FetchError where
  username : String
  error : String
  deriving Repr, DecidableEq

/-- The global `cache` dict (app.py lines 71-76).  `last_update` is `none`
for Python `None` and otherwise the integer-timestamp model of the stored
ISO string. -/
structure Cache where
  profiles : List ProfileData
  last_update : Option Int
  fetch_count : Nat
  errors : List FetchError
  deriving Repr, DecidableEq

/-- The initial global cache value (app.py lines 71-76). -/
def initial_cache : Cache :=
  { profiles := [], last_update := none, fetch_count := 0, errors := [] }

/-- Insert a record into a list already sorted by followers descending,
placing it before the first strictly-smaller element (and hence after
records with ≥ followers, before later-fetched records of equal count). -/
def insertByFollowersDesc (p : ProfileData) : List ProfileData → List ProfileData
  | [] => [p]
  | q :: qs =>
      if p.followers < q.followers then q :: insertByFollowersDesc p qs
      else p :: q :: qs

/-- `profiles.sort(key=lambda x: x['followers'], reverse=True)`
(app.py line 199).  Python's `list.sort` is a stable sort; with
`reverse=True` it produces the unique permutation of the input that is
sorted by the key descending with equal-key elements in their original
relative order.  This stable insertion sort produces exactly that list. -/
def sortByFollowersDesc : List ProfileData → List ProfileData
  | [] => []
  | p :: ps => insertByFollowersDesc p (sortByFollowersDesc ps)

/-- One iteration of the accumulation loop of `update_cache_data`
(app.py lines 188-196):
process each username in order with `fetch_profile_data(username)` (i.e.
`retry_count = 0`), appending the record to `profiles` when `profile_data`
is truthy (a built dict always is), `elif error:` appending
`{'username': username, 'error': error}` when the error string is truthy
(non-empty).  The oracle maps a username and an attempt number to the
external call's outcome. -/
def collect_step (oracle : String → Nat → FetchOutcome) (now : Int)
    (acc : List ProfileData × List FetchError) (username : String) :
    List ProfileData × List FetchError :=
  match fetch_profile_data (oracle username) now username 0 with
  | (some d, _) => (acc.1 ++ [d], acc.2)
  | (none, some e) =>
      if e ≠ "" then (acc.1, acc.2 ++ [{ username := username, error := e }])
      else acc
  | (none, none) => acc

/-- The loop of `update_cache_data` as a fold of `collect_step` over the
username list, starting from the empty `profiles` and `errors` lists. -/
def collect_profiles (oracle : String → Nat → FetchOutcome) (now : Int)
    (usernames : List String) : List ProfileData × List FetchError :=
  usernames.foldl (collect_step oracle now) ([], [])

/-- `save_cache(data)` (app.py lines 99-106): writes the snapshot to disk;
any exception is caught and logged.  `saveFails` says whether the write
raises; the result is the new on-disk state (unchanged on failure).  The
function never propagates an exception, hence its total return type. -/
def save_cache (data : Cache) (saveFails : Bool) (disk : Option Cache) :
    Option Cache :=
  if saveFails then disk else some data

/-- `update_cache_data()` (app.py lines 178-218) acting on the global cache
and the on-disk file: fetch every configured username, sort the successes by
followers descending, replace the cache's fields wholesale (`fetch_count`
incremented), save to disk (failure swallowed), and return
`(profiles, errors)`. -/
def update_cache_data (oracle : String → Nat → FetchOutcome) (now : Int)
    (usernames : List String) (c : Cache) (saveFails : Bool)
    (disk : Option Cache) :
    (List ProfileData × List FetchError) × Cache × Option Cache :=
  let pe := collect_profiles oracle now usernames
  let profiles := sortByFollowersDesc pe.1
  let c' : Cache :=
    { profiles := profiles
      last_update := some now
      fetch_count := c.fetch_count + 1
      errors := pe.2 }
  let disk' := save_cache c' saveFails disk
  ((profiles, pe.2), c', disk')

/-- The state of the cache file as seen by `load_cache`: absent, present but
unreadable (`json.load` or `datetime.fromisoformat` raises — caught at
app.py line 94), or present with parsed contents. -/
inductive DiskState where
  | absent
  | corrupt
  | present (data : Cache)
  deriving Repr, DecidableEq

/-- `load_cache()` (app.py lines 78-97): returns the parsed snapshot when the
file exists, parses, carries a `last_update`, and
`now - last_update < timedelta(minutes=CACHE_DURATION_MINUTES)`; otherwise
returns `None`. -/
def load_cache (disk : DiskState) (now : Int) : Option Cache :=
  match disk with
  | .absent => none
  | .corrupt => none
  | .present data =>
      match data.last_update with
      | none => none
      | some last_update =>
          if now - last_update < CACHE_DURATION_MINUTES * 60 then some data
          else none

/-- Python `round(x, 1)` on the rational model (used by
`get_cache_age_minutes`). -/
def pyRound1 (q : ℚ) : ℚ := (pyRoundHalfEven (q * 10) : ℚ) / 10

/-- `get_cache_age_minutes()` (app.py lines 336-343): `None` when there has
been no update, otherwise the age in minutes rounded to one decimal. -/
def get_cache_age_minutes (c : Cache) (now : Int) : Option ℚ :=
  match c.last_update with
  | none => none
  | some last_update => some (pyRound1 (((now - last_update : Int) : ℚ) / 60))

/-- Digit accumulator for `pyInt`: folds a run of decimal digits into a
number, failing on any non-digit character. -/
def digitsToNat (cs : List Char) : Option Nat :=
  cs.foldl
    (fun acc c =>
      match acc with
      | none => none
      | some n => if c.isDigit then some (n * 10 + (c.toNat - 48)) else none)
    (some 0)

/-- Python's built-in `int(s)` on a string (an opaque library call): parses a
decimal integer literal with an optional minus sign, raising `ValueError`
(here `none`) on any string that is not one — in particular on every
non-numeric string, which is the behaviour `get_profiles` depends on. -/
def pyInt (s : String) : Option Int :=
  match s.data with
  | [] => none
  | '-' :: rest =>
      if rest.isEmpty then none else (digitsToNat rest).map (fun n => -(n : Int))
  | cs => (digitsToNat cs).map (fun n => (n : Int))

/-- Response body of `GET /api/profiles` (app.py lines 268-275). -/
structure ProfilesResponse where
  success : Bool
  data : List ProfileData
  last_update : Option Int
  total : Nat
  cache_age_minutes : Option ℚ
  errors : List FetchError
  deriving Repr, DecidableEq

/-- Python's `str.lower()` (an opaque library call), character-wise
lowercasing. -/
def pyLower (s : String) : String := String.mk (s.data.map Char.toLower)

/-- `int(request.args.get('min_followers', 0))` (app.py line 257): the
absent parameter defaults to the integer `0`, a present one goes through
`int()`. -/
def parse_min_followers (min_followers : Option String) : Option Int :=
  match min_followers with
  | none => some 0
  | some s => pyInt s

/-- `get_profiles()` (app.py lines 253-275).  The two query parameters arrive
as raw strings (`none` when absent).  `verified_only` is
`request.args.get('verified', '').lower() == 'true'`; `min_followers` is
`int(request.args.get('min_followers', 0))`, whose `int()` call raises
`ValueError` on a non-numeric string — that exception propagates out of the
handler (Flask turns it into an HTTP 500), hence the `Except`.  The verified
filter applies when `verified_only`, the followers filter only when
`min_followers > 0`. -/

def get_profiles (c : Cache) (verified : Option String)
    (min_followers : Option String) (now : Int) :
    Except String ProfilesResponse :=
  let verified_only := pyLower (verified.getD "") == "true"
  match parse_min_followers min_followers with
  | none => .error "ValueError: invalid literal for int() with base 10"
  | some m =>
      let ps := c.profiles
      let ps := if verified_only then ps.filter (fun p => p.isVerified) else ps
      let ps := if m > 0 then ps.filter (fun p => m ≤ (p.followers : Int)) else ps
      .ok { success := true
            data := ps
            last_update := c.last_update
            total := ps.length
            cache_age_minutes := get_cache_age_minutes c now
            errors := c.errors }

/-- The `stats` object of the `POST /api/refresh` response
(app.py lines 290-294). -/
structure RefreshStats where
  successful : Nat
  failed : Nat
  total_requested : Nat
  deriving Repr, DecidableEq

/-- Response body of `POST /api/refresh` (app.py lines 284-295). -/
structure RefreshResponse where
  success : Bool
  message : String
  data : List ProfileData
  last_update : Option Int
  errors : List FetchError
  stats : RefreshStats
  deriving Repr, DecidableEq

/-- `refresh_profiles()` (app.py lines 277-295): runs `update_cache_data`
synchronously and reports its results; also returns the new cache and disk
states. -/
def refresh_profiles (oracle : String → Nat → FetchOutcome) (now : Int)
    (usernames : List String) (c : Cache) (saveFails : Bool)
    (disk : Option Cache) :
    RefreshResponse × Cache × Option Cache :=
  let r := update_cache_data oracle now usernames c saveFails disk
  ({ success := true
     message := "Successfully refreshed " ++ toString r.1.1.length ++ " profiles"
     data := r.1.1
     last_update := r.2.1.last_update
     errors := r.1.2
     stats := { successful := r.1.1.length
                failed := r.1.2.length
                total_requested := usernames.length } },
   r.2.1, r.2.2)

/-- The `stats` object of the `GET /api/stats` response
(app.py lines 320-332). -/
structure StatsPayload where
  total_profiles : Nat
  verified_profiles : Nat
  total_followers : Nat
  total_following : Nat
  total_posts : Nat
  avg_followers : ℚ
  avg_posts : ℚ
  top_5_profiles : List (String × Nat)
  deriving Repr, DecidableEq

/-- Response body of `GET /api/stats` (app.py lines 303-334): on an empty
cache only `success` and `message` are present; otherwise `success` and the
aggregates. -/
structure StatsResponse where
  success : Bool
  message : Option String
  stats : Option StatsPayload
  last_update : Option Int
  deriving Repr, DecidableEq

/-- `get_stats()` (app.py lines 297-334): `if not profiles:` returns
`success: False` before any aggregate (and hence any division) is computed;
otherwise sums, averages (exact rational model of the float division,
rounded to 2 decimals) and the top 5 by followers
(`sorted(..., reverse=True)[:5]`, the same stable descending sort). -/
def get_stats (c : Cache) : StatsResponse :=
  if c.profiles.isEmpty then
    { success := false
      message := some "No data available"
      stats := none
      last_update := none }
  else
    let profiles := c.profiles
    let total_followers : Nat := (profiles.map (fun p => p.followers)).sum
    let total_following : Nat := (profiles.map (fun p => p.following)).sum
    let total_posts : Nat := (profiles.map (fun p => p.posts)).sum
    let verified_count := profiles.countP (fun p => p.isVerified)
    let avg_followers := (total_followers : ℚ) / (profiles.length : ℚ)
    let avg_posts := (total_posts : ℚ) / (profiles.length : ℚ)
    let top_5 := (sortByFollowersDesc profiles).take 5
    { success := true
      message := none
      stats := some
        { total_profiles := profiles.length
          verified_profiles := verified_count
          total_followers := total_followers
          total_following := total_following
          total_posts := total_posts
          avg_followers := pyRound2 avg_followers
          avg_posts := pyRound2 avg_posts
          top_5_profiles := top_5.map (fun p => (p.username, p.followers)) }
      last_update := c.last_update }

/-- Response body of `GET /api/health` (app.py lines 245-251). -/
structure HealthResponse where
  status : String
  profiles_cached : Nat
  last_update : Option Int
  cache_age_minutes : Option ℚ
  errors_count : Nat
  deriving Repr, DecidableEq

/-- `health_check()` (app.py lines 242-251). -/
def health_check (c : Cache) (now : Int) : HealthResponse :=
  { status := "healthy"
    profiles_cached := c.profiles.length
    last_update := c.last_update
    cache_age_minutes := get_cache_age_minutes c now
    errors_count := c.errors.length }

/-! ### Concrete fixtures (for evaluating the definitions on closed inputs) -/

/-- An oracle whose external call always raises
`ProfileNotExistsException`. -/
def oracleNF : Nat → FetchOutcome := fun _ => .profileNotExists

/-- An oracle whose external call always raises `ConnectionException`. -/
def oracleCC : Nat → FetchOutcome := fun _ => .connError "network down"

/-- A concrete profile object returned by the external source. -/
def profile₀ : SourceProfile :=
  { username := "instagram"
    full_name := "Instagram"
    followers := 100
    followees := 50
    mediacount := 10
    profile_pic_url := "http://example.com/p.jpg"
    is_verified := true
    biography := "hello"
    external_url := none
    is_private := false
    is_business_account := false
    business_category_name := none }

/-- A concrete profile object with zero followers. -/
def profileZeroFollowers : SourceProfile :=
  { username := "ghost"
    full_name := ""
    followers := 0
    followees := 7
    mediacount := 0
    profile_pic_url := ""
    is_verified := false
    biography := ""
    external_url := none
    is_private := true
    is_business_account := false
    business_category_name := none }

/-- An oracle that raises `ConnectionException` on the first two attempts and
succeeds on the third. -/
def oracleCCOK : Nat → FetchOutcome :=
  fun n => if n < 2 then .connError "flaky" else .ok profile₀

/-- A concrete cached record with many followers, verified. -/
def rec_a : ProfileData :=
  { username := "a"
    fullName := "A"
    followers := 2000000
    following := 10
    posts := 3
    profilePic := ""
    isVerified := true
    biography := ""
    externalUrl := ""
    isPrivate := false
    isBusiness := false
    category := ""
    fetchedAt := 0
    engagementRate := 0 }

/-- A concrete cached record with few followers, unverified. -/
def rec_b : ProfileData :=
  { username := "b"
    fullName := "B"
    followers := 5
    following := 2
    posts := 1
    profilePic := ""
    isVerified := false
    biography := ""
    externalUrl := ""
    isPrivate := false
    isBusiness := false
    category := ""
    fetchedAt := 0
    engagementRate := 0 }

/-- A concrete populated cache (records already sorted by followers
descending). -/
def cache₀ : Cache :=
  { profiles := [rec_a, rec_b]
    last_update := some 0
    fetch_count := 1
    errors := [] }

/-- A concrete persisted snapshot whose `last_update` is time 0. -/
def snapshot₀ : Cache :=
  { profiles := [rec_b]
    last_update := some 0
    fetch_count := 3
    errors := [] }

/-! ### Helper lemmas -/

lemma ne_empty_of_data_ne {s : String} (h : s.data ≠ []) : s ≠ "" := by
  intro hc
  apply h
  rw [hc]

lemma notfound_msg_ne (u : String) :
    ("Profile '" ++ u ++ "' does not exist") ≠ "" := by
  apply ne_empty_of_data_ne
  simp [String.data_append]

lemma conn_msg_ne (u : String) :
    ("Connection error for '" ++ u ++ "'") ≠ "" := by
  apply ne_empty_of_data_ne
  simp [String.data_append]

lemma other_msg_ne (u m : String) :
    ("Error fetching '" ++ u ++ "': " ++ m) ≠ "" := by
  apply ne_empty_of_data_ne
  simp [String.data_append]

lemma fetch_ok (oracle : Nat → FetchOutcome) (now : Int) (u : String)
    (rc : Nat) (p : SourceProfile) (h : oracle rc = .ok p) :
    fetch_profile_data oracle now u rc = (some (mkProfileData now p), none) := by
  unfold fetch_profile_data
  rw [h]

lemma fetch_notfound (oracle : Nat → FetchOutcome) (now : Int) (u : String)
    (rc : Nat) (h : oracle rc = .profileNotExists) :
    fetch_profile_data oracle now u rc =
      (none, some ("Profile '" ++ u ++ "' does not exist")) := by
  unfold fetch_profile_data
  rw [h]

lemma fetch_other (oracle : Nat → FetchOutcome) (now : Int) (u : String)
    (rc : Nat) (m : String) (h : oracle rc = .otherExc m) :
    fetch_profile_data oracle now u rc =
      (none, some ("Error fetching '" ++ u ++ "': " ++ m)) := by
  unfold fetch_profile_data
  rw [h]

lemma fetch_conn_last (oracle : Nat → FetchOutcome) (now : Int) (u : String)
    (rc : Nat) (m : String) (h : oracle rc = .connError m)
    (hrc : ¬ rc < MAX_RETRIES - 1) :
    fetch_profile_data oracle now u rc =
      (none, some ("Connection error for '" ++ u ++ "'")) := by
  unfold fetch_profile_data
  rw [h]
  simp only [hrc, dite_false]

lemma fetch_conn_retry (oracle : Nat → FetchOutcome) (now : Int) (u : String)
    (rc : Nat) (m : String) (h : oracle rc = .connError m)
    (hrc : rc < MAX_RETRIES - 1) :
    fetch_profile_data oracle now u rc =
      fetch_profile_data oracle now u (rc + 1) := by
  conv_lhs => rw [fetch_profile_data.eq_def]
  rw [h]
  simp only [hrc, dite_true]

lemma attempts_not_conn (oracle : Nat → FetchOutcome) (rc : Nat)
    (h : ∀ m, oracle rc ≠ .connError m) : fetch_attempts oracle rc = 1 := by
  unfold fetch_attempts
  rcases ho : oracle rc with p | _ | m | m
  · rfl
  · rfl
  · exact absurd ho (h m)
  · rfl

lemma attempts_conn_last (oracle : Nat → FetchOutcome) (rc : Nat) (m : String)
    (h : oracle rc = .connError m) (hrc : ¬ rc < MAX_RETRIES - 1) :
    fetch_attempts oracle rc = 1 := by
  unfold fetch_attempts
  rw [h]
  simp only [hrc, dite_false]

lemma attempts_conn_retry (oracle : Nat → FetchOutcome) (rc : Nat) (m : String)
    (h : oracle rc = .connError m) (hrc : rc < MAX_RETRIES - 1) :
    fetch_attempts oracle rc = 1 + fetch_attempts oracle (rc + 1) := by
  conv_lhs => rw [fetch_attempts.eq_def]
  rw [h]
  simp only [hrc, dite_true]

/-- `fetch_profile_data` returns exactly one of a record or a (non-empty)
error message — the key fact behind the `if profile_data: / elif error:`
dispatch in `update_cache_data`. -/
lemma fetch_exactly_one (oracle : Nat → FetchOutcome) (now : Int)
    (u : String) :
    (∃ d, fetch_profile_data oracle now u 0 = (some d, none)) ∨
    (∃ e, fetch_profile_data oracle now u 0 = (none, some e) ∧ e ≠ "") := by
  have h2lt : ¬ (2 : Nat) < MAX_RETRIES - 1 := by simp [MAX_RETRIES]
  have h0lt : (0 : Nat) < MAX_RETRIES - 1 := by simp [MAX_RETRIES]
  have h1lt : (1 : Nat) < MAX_RETRIES - 1 := by simp [MAX_RETRIES]
  rcases h0 : oracle 0 with p | _ | m | m
  · exact Or.inl ⟨_, fetch_ok oracle now u 0 p h0⟩
  · exact Or.inr ⟨_, fetch_notfound oracle now u 0 h0, notfound_msg_ne u⟩
  · rw [fetch_conn_retry oracle now u 0 m h0 h0lt]
    rcases h1 : oracle 1 with p | _ | m1 | m1
    · exact Or.inl ⟨_, fetch_ok oracle now u 1 p h1⟩
    · exact Or.inr ⟨_, fetch_notfound oracle now u 1 h1, notfound_msg_ne u⟩
    · rw [fetch_conn_retry oracle now u 1 m1 h1 h1lt]
      rcases h2 : oracle 2 with p | _ | m2 | m2
      · exact Or.inl ⟨_, fetch_ok oracle now u 2 p h2⟩
      · exact Or.inr ⟨_, fetch_notfound oracle now u 2 h2, notfound_msg_ne u⟩
      · exact Or.inr ⟨_, fetch_conn_last oracle now u 2 m2 h2 h2lt, conn_msg_ne u⟩
      · exact Or.inr ⟨_, fetch_other oracle now u 2 m2 h2, other_msg_ne u m2⟩
    · exact Or.inr ⟨_, fetch_other oracle now u 1 m1 h1, other_msg_ne u m1⟩
  · exact Or.inr ⟨_, fetch_other oracle now u 0 m h0, other_msg_ne u m⟩

lemma collect_step_length (oracle : String → Nat → FetchOutcome) (now : Int)
    (acc : List ProfileData × List FetchError) (u : String) :
    (collect_step oracle now acc u).1.length +
      (collect_step oracle now acc u).2.length =
    acc.1.length + acc.2.length + 1 := by
  unfold collect_step
  rcases fetch_exactly_one (oracle u) now u with ⟨d, hd⟩ | ⟨e, he, hne⟩
  · rw [hd]
    simp
    omega
  · rw [he]
    simp [hne]
    omega

lemma collect_foldl_length (oracle : String → Nat → FetchOutcome) (now : Int) :
    ∀ (us : List String) (acc : List ProfileData × List FetchError),
      (us.foldl (collect_step oracle now) acc).1.length +
        (us.foldl (collect_step oracle now) acc).2.length =
      acc.1.length + acc.2.length + us.length := by
  intro us
  induction us with
  | nil => intro acc; simp
  | cons u us ih =>
      intro acc
      rw [List.foldl_cons, ih (collect_step oracle now acc u),
        collect_step_length]
      simp
      omega

/-- "Sorted by follower count descending", as a pairwise relation. -/
def FollowersDesc (a b : ProfileData) : Prop := b.followers ≤ a.followers

lemma insert_length (p : ProfileData) (l : List ProfileData) :
    (insertByFollowersDesc p l).length = l.length + 1 := by
  induction l with
  | nil => rfl
  | cons q qs ih =>
      unfold insertByFollowersDesc
      by_cases hlt : p.followers < q.followers
      · rw [if_pos hlt]
        simp [ih]
      · rw [if_neg hlt]
        simp

lemma sort_length (l : List ProfileData) :
    (sortByFollowersDesc l).length = l.length := by
  induction l with
  | nil => rfl
  | cons p ps ih =>
      unfold sortByFollowersDesc
      rw [insert_length, ih]
      rfl

lemma mem_insert {x p : ProfileData} {l : List ProfileData} :
    x ∈ insertByFollowersDesc p l ↔ x = p ∨ x ∈ l := by
  induction l with
  | nil => simp [insertByFollowersDesc]
  | cons q qs ih =>
      unfold insertByFollowersDesc
      by_cases hlt : p.followers < q.followers
      · rw [if_pos hlt]
        simp [ih]
        tauto
      · rw [if_neg hlt]
        simp

lemma pairwise_insert (p : ProfileData) (l : List ProfileData)
    (h : l.Pairwise FollowersDesc) :
    (insertByFollowersDesc p l).Pairwise FollowersDesc := by
  induction l with
  | nil => simp [insertByFollowersDesc]
  | cons q qs ih =>
      rw [List.pairwise_cons] at h
      obtain ⟨hq, hqs⟩ := h
      unfold insertByFollowersDesc
      by_cases hlt : p.followers < q.followers
      · rw [if_pos hlt, List.pairwise_cons]
        refine ⟨?_, ih hqs⟩
        intro x hx
        rcases mem_insert.1 hx with rfl | hxm
        · exact le_of_lt hlt
        · exact hq x hxm
      · rw [if_neg hlt, List.pairwise_cons]
        refine ⟨?_, List.Pairwise.cons hq hqs⟩
        intro x hx
        rcases List.mem_cons.1 hx with rfl | hxm
        · exact Nat.le_of_not_lt hlt
        · exact le_trans (hq x hxm) (Nat.le_of_not_lt hlt)

lemma sort_pairwise (l : List ProfileData) :
    (sortByFollowersDesc l).Pairwise FollowersDesc := by
  induction l with
  | nil => simp [sortByFollowersDesc]
  | cons p ps ih => exact pairwise_insert p _ ih

lemma insert_filter_ne (p : ProfileData) (l : List ProfileData) (k : Nat)
    (hp : p.followers ≠ k) :
    (insertByFollowersDesc p l).filter (fun x => x.followers == k) =
      l.filter (fun x => x.followers == k) := by
  induction l with
  | nil => simp [insertByFollowersDesc, hp]
  | cons q qs ih =>
      unfold insertByFollowersDesc
      by_cases hlt : p.followers < q.followers
      · rw [if_pos hlt]
        rw [List.filter_cons, List.filter_cons, ih]
      · rw [if_neg hlt]
        rw [List.filter_cons]
        simp [hp]

lemma insert_filter_eq (p : ProfileData) (l : List ProfileData) (k : Nat)
    (hp : p.followers = k) (hl : l.Pairwise FollowersDesc) :
    (insertByFollowersDesc p l).filter (fun x => x.followers == k) =
      p :: l.filter (fun x => x.followers == k) := by
  induction l with
  | nil => simp [insertByFollowersDesc, hp]
  | cons q qs ih =>
      rw [List.pairwise_cons] at hl
      obtain ⟨hq, hqs⟩ := hl
      unfold insertByFollowersDesc
      by_cases hlt : p.followers < q.followers
      · rw [if_pos hlt]
        have hqk : q.followers ≠ k := by omega
        rw [List.filter_cons, List.filter_cons]
        simp only [hqk, beq_iff_eq, if_false]
        exact ih hqs
      · rw [if_neg hlt, List.filter_cons]
        simp [hp]

/-- Stability of the descending sort: the records of any one follower count
appear in the sorted output in exactly their original (fetch) order. -/
lemma sort_filter (l : List ProfileData) (k : Nat) :
    (sortByFollowersDesc l).filter (fun x => x.followers == k) =
      l.filter (fun x => x.followers == k) := by
  induction l with
  | nil => rfl
  | cons p ps ih =>
      unfold sortByFollowersDesc
      by_cases hp : p.followers = k
      · rw [insert_filter_eq p _ k hp (sort_pairwise ps), ih, List.filter_cons]
        simp [hp]
      · rw [insert_filter_ne p _ k hp, ih, List.filter_cons]
        simp [hp]

/-! ### Claim theorems -/

/-- C1: for every configured username list, one refresh run produces for each
username exactly one of a profile record or a fetch error (never both, never
neither), so the number of records plus the number of errors returned by the
run equals the number of configured usernames. -/
theorem C1_one_outcome_per_username (oracle : String → Nat → FetchOutcome)
    (now : Int) (usernames : List String) (c : Cache) (saveFails : Bool)
    (disk : Option Cache) :
    (∀ u, (∃ d, fetch_profile_data (oracle u) now u 0 = (some d, none)) ∨
       (∃ e, fetch_profile_data (oracle u) now u 0 = (none, some e) ∧ e ≠ "")) ∧
    (update_cache_data oracle now usernames c saveFails disk).1.1.length +
      (update_cache_data oracle now usernames c saveFails disk).1.2.length =
      usernames.length := by
  refine ⟨fun u => fetch_exactly_one (oracle u) now u, ?_⟩
  unfold update_cache_data collect_profiles
  rw [sort_length]
  have h := collect_foldl_length oracle now usernames ([], [])
  simpa using h

/-- C1 witness: the run-length identity evaluated on the configured
`USERNAMES` list with an all-not-found oracle. -/
theorem C1_one_outcome_per_username_witness :
    (update_cache_data (fun _ => oracleNF) 0 USERNAMES initial_cache false
        none).1.1.length +
      (update_cache_data (fun _ => oracleNF) 0 USERNAMES initial_cache false
        none).1.2.length = USERNAMES.length :=
  (C1_one_outcome_per_username (fun _ => oracleNF) 0 USERNAMES initial_cache
    false none).2

/-- C2: fetch-with-retry returns a not-found error immediately without
retrying (1 attempt); on connection failures it retries up to 3 attempts
total and, after the third failed attempt, returns the (last) connection
error; any other exception is returned as an error without retry
(1 attempt); and a success after two connection failures is returned as a
record on the third attempt. -/
theorem C2_retry_policy (oracle : Nat → FetchOutcome) (now : Int)
    (u : String) :
    (oracle 0 = .profileNotExists →
      fetch_profile_data oracle now u 0 =
        (none, some ("Profile '" ++ u ++ "' does not exist")) ∧
      fetch_attempts oracle 0 = 1) ∧
    (∀ m, oracle 0 = .otherExc m →
      fetch_profile_data oracle now u 0 =
        (none, some ("Error fetching '" ++ u ++ "': " ++ m)) ∧
      fetch_attempts oracle 0 = 1) ∧
    (∀ m0 m1 m2, oracle 0 = .connError m0 → oracle 1 = .connError m1 →
      oracle 2 = .connError m2 →
      fetch_profile_data oracle now u 0 =
        (none, some ("Connection error for '" ++ u ++ "'")) ∧
      fetch_attempts oracle 0 = 3) ∧
    (∀ m0 m1 p, oracle 0 = .connError m0 → oracle 1 = .connError m1 →
      oracle 2 = .ok p →
      fetch_profile_data oracle now u 0 = (some (mkProfileData now p), none) ∧
      fetch_attempts oracle 0 = 3) := by
  have h0lt : (0 : Nat) < MAX_RETRIES - 1 := by simp [MAX_RETRIES]
  have h1lt : (1 : Nat) < MAX_RETRIES - 1 := by simp [MAX_RETRIES]
  have h2lt : ¬ (2 : Nat) < MAX_RETRIES - 1 := by simp [MAX_RETRIES]
  refine ⟨?_, ?_, ?_, ?_⟩
  · intro h
    refine ⟨fetch_notfound oracle now u 0 h, ?_⟩
    apply attempts_not_conn
    intro m hm
    rw [h] at hm
    cases hm
  · intro m h
    refine ⟨fetch_other oracle now u 0 m h, ?_⟩
    apply attempts_not_conn
    intro m' hm
    rw [h] at hm
    cases hm
  · intro m0 m1 m2 h0 h1 h2
    constructor
    · rw [fetch_conn_retry oracle now u 0 m0 h0 h0lt,
        fetch_conn_retry oracle now u 1 m1 h1 h1lt,
        fetch_conn_last oracle now u 2 m2 h2 h2lt]
    · rw [attempts_conn_retry oracle 0 m0 h0 h0lt,
        attempts_conn_retry oracle 1 m1 h1 h1lt,
        attempts_conn_last oracle 2 m2 h2 h2lt]
  · intro m0 m1 p h0 h1 h2
    constructor
    · rw [fetch_conn_retry oracle now u 0 m0 h0 h0lt,
        fetch_conn_retry oracle now u 1 m1 h1 h1lt,
        fetch_ok oracle now u 2 p h2]
    · rw [attempts_conn_retry oracle 0 m0 h0 h0lt,
        attempts_conn_retry oracle 1 m1 h1 h1lt,
        attempts_not_conn oracle 2 (fun m' hm => by rw [h2] at hm; cases hm)]

/-- C2 witness: the three scenarios evaluated on concrete oracles — always
not-found (1 attempt, immediate error), always connection failure (3
attempts, connection error), and connection-connection-success (3 attempts,
record). -/
theorem C2_retry_policy_witness :
    (fetch_profile_data oracleNF 0 "u" 0 =
        (none, some ("Profile '" ++ "u" ++ "' does not exist")) ∧
      fetch_attempts oracleNF 0 = 1) ∧
    (fetch_profile_data oracleCC 0 "u" 0 =
        (none, some ("Connection error for '" ++ "u" ++ "'")) ∧
      fetch_attempts oracleCC 0 = 3) ∧
    (fetch_profile_data oracleCCOK 0 "u" 0 =
        (some (mkProfileData 0 profile₀), none) ∧
      fetch_attempts oracleCCOK 0 = 3) :=
  ⟨(C2_retry_policy oracleNF 0 "u").1 rfl,
   (C2_retry_policy oracleCC 0 "u").2.2.1 "network down" "network down"
     "network down" rfl rfl rfl,
   (C2_retry_policy oracleCCOK 0 "u").2.2.2 "flaky" "flaky" profile₀
     rfl rfl rfl⟩

/-- C3: `load_cache` returns the persisted snapshot iff its last-update
timestamp is strictly within 30 minutes of now; a snapshot exactly 29
minutes old is reused and one older than 30 minutes never is. -/
theorem C3_load_freshness_window (d : Cache) (now lu : Int)
    (h : d.last_update = some lu) :
    (load_cache (.present d) now = some d ↔ now - lu < 30 * 60) ∧
    (now - lu = 29 * 60 → load_cache (.present d) now = some d) ∧
    (30 * 60 < now - lu → load_cache (.present d) now = none) := by
  simp only [load_cache]
  rw [h]
  have hdur : (CACHE_DURATION_MINUTES * 60 : Int) = 30 * 60 := by
    norm_num [CACHE_DURATION_MINUTES]
  rw [hdur]
  refine ⟨?_, ?_, ?_⟩
  · by_cases hc : now - lu < 30 * 60
    · simp [hc]
    · simp [hc]
  · intro h29
    have hc : now - lu < 30 * 60 := by omega
    simp [hc]
    omega
  · intro h30
    have hc : ¬ now - lu < 30 * 60 := by omega
    simp [hc]
    omega

/-- C3 witness: a snapshot stamped at time 0 is reused at 29 minutes
(1740 s) and rejected at 31 minutes (1860 s). -/
theorem C3_load_freshness_window_witness :
    load_cache (.present snapshot₀) 1740 = some snapshot₀ ∧
    load_cache (.present snapshot₀) 1860 = none :=
  ⟨(C3_load_freshness_window snapshot₀ 1740 0 rfl).2.1 (by norm_num),
   (C3_load_freshness_window snapshot₀ 1860 0 rfl).2.2 (by norm_num)⟩

/-- C4: after every refresh run the records are sorted by follower count
descending with a stable tie-break (records of equal follower count keep
their original fetch order), and `get_profiles` preserves descending order
in every record list it returns. -/
theorem C4_records_sorted_stable (oracle : String → Nat → FetchOutcome)
    (now : Int) (usernames : List String) (c : Cache) (saveFails : Bool)
    (disk : Option Cache) :
    ((update_cache_data oracle now usernames c saveFails disk).1.1).Pairwise
      FollowersDesc ∧
    (∀ k, ((update_cache_data oracle now usernames c saveFails
        disk).1.1).filter (fun x => x.followers == k) =
      (collect_profiles oracle now usernames).1.filter
        (fun x => x.followers == k)) ∧
    (∀ (cch : Cache) (v mf : Option String) (now' : Int)
        (r : ProfilesResponse),
      get_profiles cch v mf now' = .ok r →
      cch.profiles.Pairwise FollowersDesc → r.data.Pairwise FollowersDesc) := by
  refine ⟨?_, ?_, ?_⟩
  · unfold update_cache_data
    exact sort_pairwise _
  · intro k
    unfold update_cache_data
    exact sort_filter _ k
  · intro cch v mf now' r hr hs
    unfold get_profiles at hr
    rcases hp : parse_min_followers mf with _ | m
    · rw [hp] at hr
      cases hr
    · rw [hp] at hr
      simp only [Except.ok.injEq] at hr
      subst hr
      simp only []
      split
      · split
        · exact List.Pairwise.sublist (List.filter_sublist _)
            (List.Pairwise.sublist (List.filter_sublist _) hs)
        · exact List.Pairwise.sublist (List.filter_sublist _) hs
      · split
        · exact List.Pairwise.sublist (List.filter_sublist _) hs
        · exact hs

/-- C4 witness: the reader-side preservation applied to the concrete sorted
cache `cache₀` via a concrete `GET /api/profiles` response. -/
theorem C4_records_sorted_stable_witness :
    ∃ r, get_profiles cache₀ none none 0 = .ok r ∧
      r.data.Pairwise FollowersDesc := by
  have hs : cache₀.profiles.Pairwise FollowersDesc := by
    simp [cache₀, List.pairwise_cons, FollowersDesc, rec_a, rec_b]
  have hr : get_profiles cache₀ none none 0 = .ok
      { success := true
        data := [rec_a, rec_b]
        last_update := some 0
        total := 2
        cache_age_minutes := get_cache_age_minutes cache₀ 0
        errors := [] } := rfl
  exact ⟨_, hr,
    (C4_records_sorted_stable (fun _ => oracleNF) 0 [] initial_cache false
      none).2.2 cache₀ none none 0 _ hr hs⟩

/-- C5 counterexample: a `GET /api/profiles` request whose `min_followers`
parameter is not an integer literal makes the handler raise `ValueError`
(surfaced by Flask as an HTTP 500), not a success response with an `errors`
array. -/
theorem C5_nonnumeric_min_followers_raises :
    get_profiles cache₀ none (some "abc") 0 =
      .error "ValueError: invalid literal for int() with base 10" := rfl

/-- C5 (amended): for every request whose `min_followers` parameter is
absent or parses as an integer, no error is surfaced except through the
`errors` array: `get_profiles` and `refresh_profiles` always answer with
`success: true`, `get_stats` answers `success: false` exactly when the cache
is empty, and `health_check` always reports `healthy`. -/
theorem C5_success_unless_empty (c : Cache) (v mf : Option String) (m : Int)
    (now now' : Int) (oracle : String → Nat → FetchOutcome)
    (usernames : List String) (saveFails : Bool) (disk : Option Cache)
    (h : parse_min_followers mf = some m) :
    (∃ r, get_profiles c v mf now = .ok r ∧ r.success = true) ∧
    (refresh_profiles oracle now' usernames c saveFails disk).1.success =
      true ∧
    ((get_stats c).success = false ↔ c.profiles = []) ∧
    (health_check c now).status = "healthy" := by
  refine ⟨?_, rfl, ?_, rfl⟩
  · unfold get_profiles
    rw [h]
    exact ⟨_, rfl, rfl⟩
  · unfold get_stats
    by_cases he : c.profiles.isEmpty
    · simp [he, List.isEmpty_iff.1 he]
    · simp only [he, if_false]
      simp [List.isEmpty_iff] at he
      simp [he]

/-- C5 (amended) witness: evaluated on the populated cache `cache₀` with no
query parameters. -/
theorem C5_success_unless_empty_witness :
    (∃ r, get_profiles cache₀ none none 0 = .ok r ∧ r.success = true) ∧
    ((get_stats cache₀).success = false ↔ cache₀.profiles = []) := by
  have h := C5_success_unless_empty cache₀ none none 0 0 0
    (fun _ => oracleNF) [] false none rfl
  exact ⟨h.1, h.2.2.1⟩

/-- The engagement ratio as the spec words it: following divided by
followers times 100, rounded to 2 decimal places, defined as 0 when the
follower count is 0. -/
def engagement_rate_spec (following followers : Nat) : ℚ :=
  if followers = 0 then 0
  else pyRound2 ((following : ℚ) / (followers : ℚ) * 100)

/-- C6: every cached record's derived engagement ratio equals
following/followers × 100 rounded to 2 decimals, and equals 0 when the
follower count is 0 — the computation is total (never raises) in that
case. -/
theorem C6_engagement_rate (now : Int) (profile : SourceProfile) :
    (mkProfileData now profile).engagementRate =
      engagement_rate_spec profile.followees profile.followers ∧
    (profile.followers = 0 → (mkProfileData now profile).engagementRate = 0) := by
  constructor
  · rfl
  · intro h
    simp [mkProfileData, calculate_engagement_rate, h]

/-- C6 witness: a concrete zero-follower profile yields ratio 0. -/
theorem C6_engagement_rate_witness :
    (mkProfileData 0 profileZeroFollowers).engagementRate = 0 :=
  (C6_engagement_rate 0 profileZeroFollowers).2 rfl

/-- C7: on an empty cache `get_stats` returns `success: false` with no stats
object at all — the averages (and their divisions) are never computed. -/
theorem C7_stats_empty_cache (c : Cache) (h : c.profiles = []) :
    get_stats c =
      { success := false
        message := some "No data available"
        stats := none
        last_update := none } := by
  unfold get_stats
  rw [if_pos (by simp [h])]

/-- C7 witness: evaluated on the initial (empty) cache. -/
theorem C7_stats_empty_cache_witness :
    get_stats initial_cache =
      { success := false
        message := some "No data available"
        stats := none
        last_update := none } :=
  C7_stats_empty_cache initial_cache rfl

/-- C8: a failure while saving the snapshot is swallowed: the refresh run
still returns the same records and errors, the in-memory cache is the same
as on a successful save, and the on-disk snapshot is simply left unchanged
(while a successful save writes the new cache). -/
theorem C8_save_failure_swallowed (oracle : String → Nat → FetchOutcome)
    (now : Int) (usernames : List String) (c : Cache) (disk : Option Cache) :
    (update_cache_data oracle now usernames c true disk).1 =
      (update_cache_data oracle now usernames c false disk).1 ∧
    (update_cache_data oracle now usernames c true disk).2.1 =
      (update_cache_data oracle now usernames c false disk).2.1 ∧
    (update_cache_data oracle now usernames c true disk).2.2 = disk ∧
    (update_cache_data oracle now usernames c false disk).2.2 =
      some (update_cache_data oracle now usernames c false disk).2.1 := by
  exact ⟨rfl, rfl, rfl, rfl⟩

/-- C9: `GET /api/profiles?min_followers=1000000` returns only records with
at least 1,000,000 followers, and every cached record meeting that threshold
(and passing any verified filter) is included. -/
theorem C9_million_follower_filter (c : Cache) (v : Option String)
    (now : Int) :
    ∃ r, get_profiles c v (some "1000000") now = .ok r ∧
      (∀ p, p ∈ r.data → 1000000 ≤ p.followers) ∧
      (∀ p, p ∈ c.profiles → 1000000 ≤ p.followers →
        ((pyLower (v.getD "") == "true") = true → p.isVerified = true) →
        p ∈ r.data) := by
  have hp : parse_min_followers (some "1000000") = some 1000000 := by decide
  unfold get_profiles
  rw [hp]
  have hpos : ((1000000 : Int) > 0) := by norm_num
  simp only [hpos, if_true]
  refine ⟨_, rfl, ?_, ?_⟩
  · intro p hmem
    rcases List.mem_filter.1 hmem with ⟨_, hge⟩
    simp only [decide_eq_true_eq] at hge
    exact_mod_cast hge
  · intro p hmem hge hv
    apply List.mem_filter.2
    refine ⟨?_, by simp; exact_mod_cast hge⟩
    by_cases hvo : (pyLower (v.getD "") == "true") = true
    · simp only [hvo, if_true]
      exact List.mem_filter.2 ⟨hmem, hv hvo⟩
    · simp only [Bool.not_eq_true] at hvo
      simp only [hvo, Bool.false_eq_true, if_false]
      exact hmem

/-- C9 witness: on the concrete cache `cache₀`, the verified two-million
follower record `rec_a` is included by the filter. -/
theorem C9_million_follower_filter_witness :
    ∃ r, get_profiles cache₀ none (some "1000000") 0 = .ok r ∧
      rec_a ∈ r.data := by
  obtain ⟨r, hr, _, hincl⟩ := C9_million_follower_filter cache₀ none 0
  exact ⟨r, hr,
    hincl rec_a (by simp [cache₀]) (by norm_num [rec_a]) (fun _ => rfl)⟩

/-- C10: for every `min_followers` value that parses to an integer ≤ 0
(including negatives), `GET /api/profiles` skips the follower filter
entirely and returns the full record list, subject only to the verified
filter. -/
theorem C10_nonpositive_min_followers_skips_filter (c : Cache)
    (v : Option String) (s : String) (m : Int) (now : Int)
    (hs : pyInt s = some m) (hm : m ≤ 0) :
    ∃ r, get_profiles c v (some s) now = .ok r ∧
      r.data = (if pyLower (v.getD "") == "true"
        then c.profiles.filter (fun p => p.isVerified)
        else c.profiles) := by
  unfold get_profiles
  have hp : parse_min_followers (some s) = some m := hs
  rw [hp]
  have hno : ¬ (m > 0) := by omega
  simp only [hno, if_false]
  exact ⟨_, rfl, rfl⟩

/-- C10 witness: `min_followers=-5` on the concrete cache `cache₀` with no
verified filter returns the whole cached record list. -/
theorem C10_nonpositive_min_followers_skips_filter_witness :
    ∃ r, get_profiles cache₀ none (some "-5") 0 = .ok r ∧
      r.data = cache₀.profiles := by
  obtain ⟨r, hr, hd⟩ := C10_nonpositive_min_followers_skips_filter cache₀
    none "-5" (-5) 0 (by decide) (by norm_num)
  refine ⟨r, hr, ?_⟩
  rw [hd, if_neg (by decide)]

end InstaScraper
